import Mathlib

/-!
Shallow embedding of the TREC ride-control-computer core:
the RoboClaw motor-controller service (`RoboClawSerialMC.py`),
the serial protocol adapter decode functions (`RoboClaw.py`),
and the ride supervisor (`RCC.py`), together with theorems about
the behaviour of these functions.

Numeric conventions: Python floats are modelled as rationals (`ℚ`);
Python ints as `ℤ` or `ℕ` matching the wire format (unsigned struct
fields become `ℕ`); Python strings as `String`.
-/

namespace RideControl

/-- `MotorControllerState` enum from `MotorController.py`. -/
inductive MotorControllerState
  | IDLE
  | JOGGING
  | HOMING
  | SEQUENCING
  | STOPPING
  | DISABLED
  deriving DecidableEq, Repr

/-- `MotorTelemetry` dataclass from `MotorController.py`:
cached telemetry for a single motor. -/
structure MotorTelemetry where
  speed : ℚ := 0
  encoder : ℤ := 0
  current : ℚ := 0
  direction : String := "Forward"
  timestamp : ℚ := 0
  deriving DecidableEq, Repr

/-- `ControllerTelemetry` dataclass from `MotorController.py`.  The Python
`motors` dict always has exactly the keys 1 and 2, modelled as two fields. -/
structure ControllerTelemetry where
  motor1 : MotorTelemetry := {}
  motor2 : MotorTelemetry := {}
  voltage : ℚ := 0
  status : String := "Unknown"
  temp1 : ℚ := 0
  temp2 : ℚ := 0
  last_update : ℚ := 0
  deriving DecidableEq, Repr

/-- Configuration constants of `RoboClawSerialMotorController`. -/
def JOG_SPEED : ℤ := 500
def JOG_ACCELERATION : ℤ := 200
def STOP_DECELERATION : ℤ := 300
def HALT_DECELERATION : ℤ := 10000
def STOPPED_THRESHOLD : ℚ := 5

/-- The mutable fields of a `RoboClawSerialMotorController` instance that the
command API and the control loop read and write. -/
structure MCState where
  state : MotorControllerState := .DISABLED
  jog_motor : ℤ := 0
  jog_direction : ℤ := 0
  active_deceleration : ℤ := STOP_DECELERATION
  telemetry : ControllerTelemetry := {}
  deriving DecidableEq, Repr

namespace MCState

/-- `RoboClawSerialMotorController._set_state` (the log line aside, it just
assigns the new state). -/
def set_state (s : MCState) (new_state : MotorControllerState) : MCState :=
  { s with state := new_state }

/-- `RoboClawSerialMotorController.startRideSequence`. -/
def startRideSequence (s : MCState) : MCState :=
  if s.state ≠ MotorControllerState.IDLE then s
  else s.set_state .SEQUENCING

/-- `RoboClawSerialMotorController.home`. -/
def home (s : MCState) : MCState :=
  s.set_state .HOMING

/-- `RoboClawSerialMotorController.jogMotor`: returns the updated object state
and the boolean return value. -/
def jogMotor (s : MCState) (motorNumber : ℤ) (direction : ℤ) :
    MCState × Bool :=
  if motorNumber ≠ 1 ∧ motorNumber ≠ 2 then
    (s, false)
  else if s.state ≠ MotorControllerState.IDLE ∧
          s.state ≠ MotorControllerState.JOGGING then
    (s, false)
  else
    (({ s with jog_motor := motorNumber,
               jog_direction := direction }).set_state .JOGGING, true)

/-- `RoboClawSerialMotorController.stopMotion`. -/
def stopMotion (s : MCState) : MCState :=
  ({ s with active_deceleration := STOP_DECELERATION }).set_state .STOPPING

/-- `RoboClawSerialMotorController.haltMotion`. -/
def haltMotion (s : MCState) : MCState :=
  ({ s with active_deceleration := HALT_DECELERATION }).set_state .STOPPING

/-- `RoboClawSerialMotorController.getMotorSpeeds` (reads the cached
telemetry under the lock). -/
def getMotorSpeeds (s : MCState) : ℚ × ℚ :=
  (s.telemetry.motor1.speed, s.telemetry.motor2.speed)

end MCState

/-- A serial command emitted by the control loop
(`RoboClaw.set_speed_with_acceleration`). -/
inductive SerialCmd
  | setSpeedWithAcceleration (motor : ℤ) (speed : ℤ) (acceleration : ℤ)
  deriving DecidableEq, Repr

/-- `RoboClawSerialMotorController._execute_state_action`: the serial commands
sent on a tick as a function of the current state (it never changes state). -/
def executeStateAction (s : MCState) : List SerialCmd :=
  if s.state = MotorControllerState.JOGGING then
    [SerialCmd.setSpeedWithAcceleration s.jog_motor
      (if s.jog_direction > 0 then JOG_SPEED else -JOG_SPEED)
      JOG_ACCELERATION]
  else if s.state = MotorControllerState.STOPPING then
    [SerialCmd.setSpeedWithAcceleration 1 0 s.active_deceleration,
     SerialCmd.setSpeedWithAcceleration 2 0 s.active_deceleration]
  else
    []

/-- `RoboClawSerialMotorController._check_state_transitions`. -/
def checkStateTransitions (s : MCState) : MCState :=
  if s.state = MotorControllerState.STOPPING then
    if |s.getMotorSpeeds.1| < STOPPED_THRESHOLD ∧
        |s.getMotorSpeeds.2| < STOPPED_THRESHOLD then
      s.set_state .IDLE
    else s
  else s

/-- The result of `RoboClaw.read_encoder_speed` (a dict with an unsigned
`speed` magnitude and a `direction` string). -/
structure EncoderSpeed where
  speed : ℕ
  direction : String
  deriving DecidableEq, Repr

/-- `RoboClaw.read_encoder_speed`, given the raw `>IB` payload fields
(unsigned 32-bit speed and the status byte). -/
def read_encoder_speed (speed : ℕ) (status : ℕ) : EncoderSpeed :=
  { speed := speed
    direction := if status ≠ 0 then "Backward" else "Forward" }

/-- The values a tick's telemetry poll obtains from the hardware:
`pollingStartTime` (the `time.time()` sample taken at the start of
`_poll_telemetry`) plus the results of the seven reads. -/
structure PollReadings where
  pollingStartTime : ℚ
  status : String
  voltage : ℚ
  current1 : ℚ
  current2 : ℚ
  temp1 : ℚ
  temp2 : ℚ
  encoder1 : ℤ
  encoder2 : ℤ
  speed1 : EncoderSpeed
  speed2 : EncoderSpeed
  deriving DecidableEq, Repr

/-- The per-motor record built inside `_poll_telemetry`'s loop: the published
`speed` is `speed_data["speed"]` taken verbatim (the unsigned magnitude cast
to float), with the direction kept as a separate tag. -/
def motorTelemetryOfPoll (speedData : EncoderSpeed) (encoder : ℤ)
    (current : ℚ) (pollingStartTime : ℚ) : MotorTelemetry :=
  { speed := (speedData.speed : ℚ)
    encoder := encoder
    current := current
    direction := speedData.direction
    timestamp := pollingStartTime }

/-- The complete `ControllerTelemetry` written (all fields together, under the
telemetry lock) at the end of a successful `_poll_telemetry`. -/
def telemetryOfPoll (r : PollReadings) : ControllerTelemetry :=
  { motor1 := motorTelemetryOfPoll r.speed1 r.encoder1 r.current1 r.pollingStartTime
    motor2 := motorTelemetryOfPoll r.speed2 r.encoder2 r.current2 r.pollingStartTime
    voltage := r.voltage
    status := r.status
    temp1 := r.temp1
    temp2 := r.temp2
    last_update := r.pollingStartTime }

/-- One iteration of `RoboClawSerialMotorController._control_loop`'s `try`
block: execute the state action (which never mutates the object), poll
telemetry, then check state transitions.  `none` models an exception raised
by the serial layer during the action or the poll: the handler logs and
continues, no telemetry field and no state field having been written
(the snapshot write happens only after all reads succeed), and
`_check_state_transitions` is skipped for that tick. -/
def tick (s : MCState) (i : Option PollReadings) : MCState :=
  match i with
  | none => s
  | some r => checkStateTransitions { s with telemetry := telemetryOfPoll r }

/-- `RoboClawSerialMotorController.isTelemetryStale` with the default
threshold `STALE_THRESHOLD_MULTIPLIER / POLL_RATE_HZ = 3/50` seconds:
`getTelemetryAge` returns infinity when `last_update` is 0 (never updated),
which exceeds any threshold, and `now - last_update` otherwise. -/
def isTelemetryStale (s : MCState) (now : ℚ) : Bool :=
  if s.telemetry.last_update = 0 then true
  else now - s.telemetry.last_update > 3 / 50

/-- `RoboClawSerialMotorController._attempt_reset`, called exactly once, from
`start()` after launching the control thread (`now` is the wall-clock instant
of the staleness query).  The source compares the status with `is not
"Normal"`, an identity test on interned string literals, modelled as string
inequality. -/
def attempt_reset (s : MCState) (now : ℚ) : MCState :=
  if s.state ≠ MotorControllerState.DISABLED then s
  else if isTelemetryStale s now then s
  else if s.telemetry.status ≠ "Normal" then s
  else s.set_state .IDLE

/-- Run a sequence of control-loop iterations. -/
def runTicks (s : MCState) (ts : List (Option PollReadings)) : MCState :=
  ts.foldl tick s

/-- A tick input that cannot fire the STOPPING→IDLE transition: either the
tick's poll raises (telemetry untouched, transition check skipped) or some
polled speed magnitude is at least `STOPPED_THRESHOLD`. -/
def keepsStopping (i : Option PollReadings) : Prop :=
  i = none ∨ ∃ r, i = some r ∧
    (STOPPED_THRESHOLD ≤ |(r.speed1.speed : ℚ)| ∨
     STOPPED_THRESHOLD ≤ |(r.speed2.speed : ℚ)|)

/-- The motor a serial command addresses. -/
def SerialCmd.motor : SerialCmd → ℤ
  | .setSpeedWithAcceleration m _ _ => m

/-! ## Serial protocol adapter decode functions (`RoboClaw.py`) -/

/-- Modelled from the spec: the claim's phrase "the value rendered in
hexadecimal" (spec §3: `"Unknown Error: <hex>"`); no hexadecimal rendering
exists in the source, so it is modelled as the base-16 digit string
(e.g. `26 ↦ "1a"`). -/
def natToHexString (n : ℕ) : String :=
  String.mk (Nat.toDigits 16 n)

/-- `RoboClaw.read_status`: the lookup table mapping a decoded 32-bit status
value to its human-readable string, with the dict `.get` default
`f'Unknown Error: \x7bstatus\x7d'` (Python renders the int in decimal, which is
what `toString` on `ℕ` produces). -/
def statusDecode (status : ℕ) : String :=
  if status = 0x00000000 then "Normal"
  else if status = 0x00000001 then "E-Stop"
  else if status = 0x00000002 then "Temperature Error"
  else if status = 0x00000004 then "Temperature 2 Error"
  else if status = 0x00000008 then "Main Voltage High Error"
  else if status = 0x00000010 then "Logic Voltage High Error"
  else if status = 0x00000020 then "Logic Voltage Low Error"
  else if status = 0x00000040 then "M1 Driver Fault Error"
  else if status = 0x00000080 then "M2 Driver Fault Error"
  else if status = 0x00000100 then "M1 Speed Error"
  else if status = 0x00000200 then "M2 Speed Error"
  else if status = 0x00000400 then "M1 Position Error"
  else if status = 0x00000800 then "M2 Position Error"
  else if status = 0x00001000 then "M1 Current Error"
  else if status = 0x00002000 then "M2 Current Error"
  else if status = 0x00010000 then "M1 Over Current Warning"
  else if status = 0x00020000 then "M2 Over Current Warning"
  else if status = 0x00040000 then "Main Voltage High Warning"
  else if status = 0x00080000 then "Main Voltage Low Warning"
  else if status = 0x00100000 then "Temperature Warning"
  else if status = 0x00200000 then "Temperature 2 Warning"
  else if status = 0x00400000 then "S4 Signal Triggered"
  else if status = 0x00800000 then "S5 Signal Triggered"
  else if status = 0x01000000 then "Speed Error Limit Warning"
  else if status = 0x02000000 then "Position Error Limit Warning"
  else "Unknown Error: " ++ toString status

/-- The key set of the `status_codes` dict in `RoboClaw.read_status`. -/
def statusCodeKeys : List ℕ :=
  [0x00000000, 0x00000001, 0x00000002, 0x00000004, 0x00000008, 0x00000010,
   0x00000020, 0x00000040, 0x00000080, 0x00000100, 0x00000200, 0x00000400,
   0x00000800, 0x00001000, 0x00002000, 0x00010000, 0x00020000, 0x00040000,
   0x00080000, 0x00100000, 0x00200000, 0x00400000, 0x00800000, 0x01000000,
   0x02000000]

/-- `RoboClaw.read_status`: composition of the four raw `>BBBB` bytes into the
32-bit status value, then decoding. -/
def read_status (b0 b1 b2 b3 : ℕ) : String :=
  statusDecode ((b0 <<< 24) ||| (b1 <<< 16) ||| (b2 <<< 8) ||| b3)

/-- The dict returned by `RoboClaw.decode_standard_config`, modelled as a
record: one Bool field per dict key, in the source's insertion order. -/
structure StandardConfig where
  rcMode : Bool                -- "RC Mode"
  analogMode : Bool            -- "Analog Mode"
  simpleSerialMode : Bool      -- "Simple Serial Mode"
  packetSerialMode : Bool      -- "Packet Serial Mode"
  batteryModeOff : Bool        -- "Battery Mode Off"
  batteryModeAuto : Bool       -- "Battery Mode Auto"
  batteryMode2Cell : Bool      -- "Battery Mode 2 Cell"
  batteryMode3Cell : Bool      -- "Battery Mode 3 Cell"
  batteryMode4Cell : Bool      -- "Battery Mode 4 Cell"
  batteryMode5Cell : Bool      -- "Battery Mode 5 Cell"
  batteryMode6Cell : Bool      -- "Battery Mode 6 Cell"
  batteryMode7Cell : Bool      -- "Battery Mode 7 Cell"
  baudRate2400 : Bool          -- "BaudRate 2400"
  baudRate9600 : Bool          -- "BaudRate 9600"
  baudRate19200 : Bool         -- "BaudRate 19200"
  baudRate38400 : Bool         -- "BaudRate 38400"
  baudRate57600 : Bool         -- "BaudRate 57600"
  baudRate115200 : Bool        -- "BaudRate 115200"
  baudRate230400 : Bool        -- "BaudRate 230400"
  baudRate460800 : Bool        -- "BaudRate 460800"
  flipSwitch : Bool            -- "FlipSwitch"
  packetAddress80 : Bool       -- "Packet Address 0x80"
  packetAddress81 : Bool       -- "Packet Address 0x81"
  packetAddress82 : Bool       -- "Packet Address 0x82"
  packetAddress83 : Bool       -- "Packet Address 0x83"
  packetAddress84 : Bool       -- "Packet Address 0x84"
  packetAddress85 : Bool       -- "Packet Address 0x85"
  packetAddress86 : Bool       -- "Packet Address 0x86"
  packetAddress87 : Bool       -- "Packet Address 0x87"
  slaveMode : Bool             -- "Slave Mode"
  relayMode : Bool             -- "Relay Mode"
  swapEncoders : Bool          -- "Swap Encoders"
  swapButtons : Bool           -- "Swap Buttons"
  multiUnitMode : Bool         -- "Multi-Unit Mode"
  deriving DecidableEq, Repr

/-- `RoboClaw.decode_standard_config` over a 16-bit configuration mask. -/
def decode_standard_config (config : ℕ) : StandardConfig :=
  let serial_mode := config &&& 0x0003
  let battery_mode := config &&& 0x001C
  let baud_rate := config &&& 0x00E0
  let packet_address_field := (config &&& 0x0700) >>> 8
  { rcMode := serial_mode = 0x0000
    analogMode := serial_mode = 0x0001
    simpleSerialMode := serial_mode = 0x0002
    packetSerialMode := serial_mode = 0x0003
    batteryModeOff := battery_mode = 0x0000
    batteryModeAuto := battery_mode = 0x0004
    batteryMode2Cell := battery_mode = 0x0008
    batteryMode3Cell := battery_mode = 0x000C
    batteryMode4Cell := battery_mode = 0x0010
    batteryMode5Cell := battery_mode = 0x0014
    batteryMode6Cell := battery_mode = 0x0018
    batteryMode7Cell := battery_mode = 0x001C
    baudRate2400 := baud_rate = 0x0000
    baudRate9600 := baud_rate = 0x0020
    baudRate19200 := baud_rate = 0x0040
    baudRate38400 := baud_rate = 0x0060
    baudRate57600 := baud_rate = 0x0080
    baudRate115200 := baud_rate = 0x00A0
    baudRate230400 := baud_rate = 0x00C0
    baudRate460800 := baud_rate = 0x00E0
    flipSwitch := config &&& 0x0100 ≠ 0
    packetAddress80 := packet_address_field = 0
    packetAddress81 := packet_address_field = 1
    packetAddress82 := packet_address_field = 2
    packetAddress83 := packet_address_field = 3
    packetAddress84 := packet_address_field = 4
    packetAddress85 := packet_address_field = 5
    packetAddress86 := packet_address_field = 6
    packetAddress87 := packet_address_field = 7
    slaveMode := config &&& 0x0800 ≠ 0
    relayMode := config &&& 0x1000 ≠ 0
    swapEncoders := config &&& 0x2000 ≠ 0
    swapButtons := config &&& 0x4000 ≠ 0
    multiUnitMode := config &&& 0x8000 ≠ 0 }

/-- Number of true entries among the four serial-mode keys. -/
def serialModeTrueCount (c : StandardConfig) : ℕ :=
  c.rcMode.toNat + c.analogMode.toNat + c.simpleSerialMode.toNat +
    c.packetSerialMode.toNat

/-- Number of true entries among the eight battery-mode keys. -/
def batteryModeTrueCount (c : StandardConfig) : ℕ :=
  c.batteryModeOff.toNat + c.batteryModeAuto.toNat + c.batteryMode2Cell.toNat +
    c.batteryMode3Cell.toNat + c.batteryMode4Cell.toNat +
    c.batteryMode5Cell.toNat + c.batteryMode6Cell.toNat +
    c.batteryMode7Cell.toNat

/-- Number of true entries among the eight baud-rate keys. -/
def baudRateTrueCount (c : StandardConfig) : ℕ :=
  c.baudRate2400.toNat + c.baudRate9600.toNat + c.baudRate19200.toNat +
    c.baudRate38400.toNat + c.baudRate57600.toNat + c.baudRate115200.toNat +
    c.baudRate230400.toNat + c.baudRate460800.toNat

/-- Number of true entries among the eight packet-address keys. -/
def packetAddressTrueCount (c : StandardConfig) : ℕ :=
  c.packetAddress80.toNat + c.packetAddress81.toNat + c.packetAddress82.toNat +
    c.packetAddress83.toNat + c.packetAddress84.toNat + c.packetAddress85.toNat +
    c.packetAddress86.toNat + c.packetAddress87.toNat

/-! ## Ride supervisor (`RCC.py`) -/

/-- `MomentaryButtonState` enum from `ControlPanel.py`. -/
inductive MomentaryButtonState
  | PRESSED
  | RELEASED
  deriving DecidableEq, Repr

/-- `SustainedSwitchState` enum from `ControlPanel.py`. -/
inductive SustainedSwitchState
  | ON
  | OFF
  | MAINTENANCE
  deriving DecidableEq, Repr

/-- `MomentarySwitchState` enum from `ControlPanel.py`. -/
inductive MomentarySwitchState
  | UP
  | NEUTRAL
  | DOWN
  deriving DecidableEq, Repr

/-- A panel event: which callback fires, with its argument
(the six callbacks `RCC.__init__` registers on the control panel). -/
inductive PanelEvent
  | dispatch (state : MomentaryButtonState)
  | reset (state : MomentaryButtonState)
  | stop (state : MomentaryButtonState)
  | estop (state : MomentaryButtonState)
  | maintenanceSwitch (state : SustainedSwitchState)
  | jogSwitch (state : MomentarySwitchState)
  deriving DecidableEq, Repr

/-- A call the supervisor makes on its collaborators
(motor controller service and theming/show controller). -/
inductive Action
  | haltMotion
  | stopShow
  | startShow
  | startRideSequence
  | stopMotion
  | jogMotor (motorNumber : ℤ) (direction : ℤ)
  deriving DecidableEq, Repr

/-- The supervisor's own mutable flags (`RCC.__maintenanceMode`,
`RCC.__estopSoftwareLatched`). -/
structure RCCState where
  maintenanceMode : Bool := false
  estopSoftwareLatched : Bool := false
  deriving DecidableEq, Repr

/-- Environment an event handler reads: the reset handler queries
`MotorController.isEstopActive()`. -/
structure PanelEnv where
  hwEstopActive : Bool
  deriving DecidableEq, Repr

/-- `RCC.__handleEstop`: latch the software E-Stop, halt motion, stop the
show.  Returns the new flags and the collaborator calls in order. -/
def handleEstop (s : RCCState) : RCCState × List Action :=
  ({ s with estopSoftwareLatched := true },
   [Action.haltMotion, Action.stopShow])

/-- One panel event handled synchronously by the supervisor thread
(the bodies of `__onDispatch`, `__onReset`, `__onStop`, `__onEstop`,
`__onMaintenanceSwitch`, `__onMaintenanceJogSwitch`). -/
def handleEvent (env : PanelEnv) (s : RCCState) :
    PanelEvent → RCCState × List Action
  | .dispatch st =>
      if st = MomentaryButtonState.PRESSED then
        if s.estopSoftwareLatched then (s, [])
        else if ¬s.maintenanceMode then
          (s, [Action.startShow, Action.startRideSequence])
        else (s, [])
      else (s, [])
  | .reset st =>
      if st = MomentaryButtonState.PRESSED then
        if s.estopSoftwareLatched then
          if env.hwEstopActive then (s, [])
          else ({ s with estopSoftwareLatched := false }, [])
        else (s, [])
      else (s, [])
  | .stop st =>
      if st = MomentaryButtonState.PRESSED then
        (s, [Action.stopMotion, Action.stopShow])
      else (s, [])
  | .estop st =>
      if st = MomentaryButtonState.PRESSED then handleEstop s
      else (s, [])
  | .maintenanceSwitch st =>
      if st = SustainedSwitchState.ON then
        ({ s with maintenanceMode := true }, [Action.stopShow])
      else if st = SustainedSwitchState.OFF then
        ({ s with maintenanceMode := false }, [])
      else (s, [])
  | .jogSwitch st =>
      if ¬s.maintenanceMode ∨ s.estopSoftwareLatched then (s, [])
      else if st = MomentarySwitchState.UP then
        (s, [Action.jogMotor 1 1, Action.jogMotor 2 1])
      else if st = MomentarySwitchState.DOWN then
        (s, [Action.jogMotor 1 (-1), Action.jogMotor 2 (-1)])
      else if st = MomentarySwitchState.NEUTRAL then
        (s, [Action.stopMotion])
      else (s, [])

/-- Handle a queue of panel events in FIFO order (the supervisor drains the
callback queue and runs each handler synchronously); the emitted collaborator
calls are concatenated in execution order. -/
def processEvents (env : PanelEnv) (s : RCCState) :
    List PanelEvent → RCCState × List Action
  | [] => (s, [])
  | e :: es =>
      let r1 := handleEvent env s e
      let r2 := processEvents env r1.1 es
      (r2.1, r1.2 ++ r2.2)

/-- A healthy poll result (the values the unit tests' mock returns): status
"Normal", both motors essentially stopped. -/
def samplePollSmall : PollReadings :=
  { pollingStartTime := 1
    status := "Normal"
    voltage := 12
    current1 := 1 / 2
    current2 := 3 / 5
    temp1 := 25
    temp2 := 25
    encoder1 := 1000
    encoder2 := 1000
    speed1 := ⟨0, "Forward"⟩
    speed2 := ⟨0, "Forward"⟩ }

/-- A healthy poll result with both motors still turning fast. -/
def samplePollBig : PollReadings :=
  { samplePollSmall with speed1 := ⟨100, "Forward"⟩, speed2 := ⟨100, "Forward"⟩ }

/-! ## Helper lemmas -/

/-- Bit-mask distribution over a shifted mask. -/
theorem and_shiftLeft_mask (x y n : ℕ) :
    x &&& (y <<< n) = ((x >>> n) &&& y) <<< n := by
  apply Nat.eq_of_testBit_eq
  intro i
  simp only [Nat.testBit_and, Nat.testBit_shiftLeft, Nat.testBit_shiftRight]
  by_cases h : n ≤ i
  · simp [h]
  · simp [h]

/-- Masking with `(2^m - 1) <<< k` extracts bits `k..k+m-1`. -/
theorem and_mask_eq (c k m : ℕ) :
    c &&& ((2 ^ m - 1) <<< k) = (c / 2 ^ k % 2 ^ m) * 2 ^ k := by
  rw [and_shiftLeft_mask, Nat.and_pow_two_sub_one_eq_mod,
    Nat.shiftRight_eq_div_pow, Nat.shiftLeft_eq]

/-- A tick never moves the controller out of IDLE. -/
theorem tick_preserves_idle (s : MCState) (i : Option PollReadings)
    (h : s.state = MotorControllerState.IDLE) :
    (tick s i).state = MotorControllerState.IDLE := by
  cases i with
  | none => exact h
  | some r => simp [tick, checkStateTransitions, h]

/-- Ticks never move the controller out of IDLE. -/
theorem runTicks_preserves_idle (ts : List (Option PollReadings)) :
    ∀ s : MCState, s.state = MotorControllerState.IDLE →
      (runTicks s ts).state = MotorControllerState.IDLE := by
  induction ts with
  | nil => intro s h; exact h
  | cons t ts ih =>
      intro s h
      exact ih _ (tick_preserves_idle s t h)

/-- A tick whose input cannot fire the STOPPING→IDLE transition leaves a
STOPPING controller in STOPPING. -/
theorem tick_keeps_stopping (s : MCState) (i : Option PollReadings)
    (h : s.state = MotorControllerState.STOPPING) (hk : keepsStopping i) :
    (tick s i).state = MotorControllerState.STOPPING := by
  rcases hk with rfl | ⟨r, rfl, hr⟩
  · exact h
  · simp only [tick, checkStateTransitions, MCState.getMotorSpeeds, h,
      if_true, telemetryOfPoll, motorTelemetryOfPoll]
    rcases hr with hr | hr <;>
      [skip; skip] <;>
      rw [if_neg] <;>
      first
        | rfl
        | (intro hc; rcases hc with ⟨h1, h2⟩; simp_all; linarith)

/-- Ticks that cannot fire the STOPPING→IDLE transition leave a STOPPING
controller in STOPPING. -/
theorem runTicks_keeps_stopping (ts : List (Option PollReadings)) :
    ∀ s : MCState, s.state = MotorControllerState.STOPPING →
      (∀ i ∈ ts, keepsStopping i) →
      (runTicks s ts).state = MotorControllerState.STOPPING := by
  induction ts with
  | nil => intro s h _; exact h
  | cons t ts ih =>
      intro s h hk
      exact ih _ (tick_keeps_stopping s t h (hk t (by simp)))
        fun i hi => hk i (by simp [hi])

/-- A successful poll reporting both speed magnitudes below the threshold
moves a STOPPING controller to IDLE on that same tick. -/
theorem tick_stopping_to_idle (s : MCState) (r : PollReadings)
    (h : s.state = MotorControllerState.STOPPING)
    (h1 : |(r.speed1.speed : ℚ)| < STOPPED_THRESHOLD)
    (h2 : |(r.speed2.speed : ℚ)| < STOPPED_THRESHOLD) :
    (tick s (some r)).state = MotorControllerState.IDLE := by
  have h1' : (r.speed1.speed : ℚ) < STOPPED_THRESHOLD := (abs_lt.mp h1).2
  have h2' : (r.speed2.speed : ℚ) < STOPPED_THRESHOLD := (abs_lt.mp h2).2
  simp [tick, checkStateTransitions, MCState.getMotorSpeeds, h,
    telemetryOfPoll, motorTelemetryOfPoll, MCState.set_state, h1', h2']

/-! ## Claim theorems -/

/-- C6: for every motor number outside {1, 2} and every direction,
`jogMotor` returns False and leaves the whole controller object (state and
stashed jog motor/direction included) unchanged; likewise when the state is
neither IDLE nor JOGGING. -/
theorem jogMotor_rejected_no_state_change (s : MCState) (n d : ℤ) :
    (n ≠ 1 ∧ n ≠ 2 → s.jogMotor n d = (s, false)) ∧
    (s.state ≠ MotorControllerState.IDLE ∧
        s.state ≠ MotorControllerState.JOGGING →
      s.jogMotor n d = (s, false)) := by
  constructor
  · intro h
    simp [MCState.jogMotor, h]
  · intro h
    by_cases hn : n ≠ 1 ∧ n ≠ 2
    · simp [MCState.jogMotor, hn]
    · simp [MCState.jogMotor, hn, h]

/-- Witness for C6 at motor number 3 (invalid motor) and at the initial
DISABLED state with a valid motor number. -/
theorem jogMotor_rejected_no_state_change_witness :
    MCState.jogMotor {} 3 1 = ({}, false) ∧
    MCState.jogMotor {} 1 1 = ({}, false) :=
  ⟨(jogMotor_rejected_no_state_change {} 3 1).1 (by decide),
   (jogMotor_rejected_no_state_change {} 1 1).2 (by decide)⟩

/-- C10: two consecutive accepted `jogMotor` calls (motor 1 then motor 2, as
the supervisor issues on a jog-switch event) leave `_jog_motor = 2`, and the
JOGGING state action of every subsequent tick sends exactly one
`set_speed_with_acceleration`, addressed to motor 2; motor 1 receives no
speed command from the JOGGING state action. -/
theorem jog_stash_overwritten_second_motor (s : MCState) (d : ℤ)
    (h : s.state = MotorControllerState.IDLE ∨
         s.state = MotorControllerState.JOGGING) :
    (s.jogMotor 1 d).2 = true ∧
    ((s.jogMotor 1 d).1.jogMotor 2 d).2 = true ∧
    ((s.jogMotor 1 d).1.jogMotor 2 d).1.jog_motor = 2 ∧
    executeStateAction ((s.jogMotor 1 d).1.jogMotor 2 d).1 =
      [SerialCmd.setSpeedWithAcceleration 2
        (if d > 0 then JOG_SPEED else -JOG_SPEED) JOG_ACCELERATION] ∧
    ∀ c ∈ executeStateAction ((s.jogMotor 1 d).1.jogMotor 2 d).1,
      c.motor ≠ 1 := by
  have h1 : s.jogMotor 1 d =
      ({ s with jog_motor := 1, jog_direction := d,
                state := MotorControllerState.JOGGING }, true) := by
    rcases h with h | h <;>
      simp [MCState.jogMotor, MCState.set_state, h]
  have h2 :
      MCState.jogMotor
        { s with jog_motor := 1, jog_direction := d,
                 state := MotorControllerState.JOGGING } 2 d =
      ({ s with jog_motor := 2, jog_direction := d,
                state := MotorControllerState.JOGGING }, true) := by
    simp [MCState.jogMotor, MCState.set_state]
  rw [h1]
  simp only [h2]
  refine ⟨trivial, trivial, trivial, ?_, ?_⟩
  · simp [executeStateAction]
  · intro c hc
    simp [executeStateAction] at hc
    simp [hc, SerialCmd.motor]

/-- Witness for C10 from the IDLE state with direction +1. -/
theorem jog_stash_overwritten_second_motor_witness :
    (MCState.jogMotor { state := MotorControllerState.IDLE } 1 1).2 = true ∧
    ((MCState.jogMotor { state := MotorControllerState.IDLE } 1 1).1.jogMotor
        2 1).2 = true ∧
    ((MCState.jogMotor { state := MotorControllerState.IDLE } 1 1).1.jogMotor
        2 1).1.jog_motor = 2 ∧
    executeStateAction
        ((MCState.jogMotor { state := MotorControllerState.IDLE } 1
            1).1.jogMotor 2 1).1 =
      [SerialCmd.setSpeedWithAcceleration 2
        (if (1 : ℤ) > 0 then JOG_SPEED else -JOG_SPEED) JOG_ACCELERATION] ∧
    ∀ c ∈ executeStateAction
        ((MCState.jogMotor { state := MotorControllerState.IDLE } 1
            1).1.jogMotor 2 1).1,
      c.motor ≠ 1 :=
  jog_stash_overwritten_second_motor { state := MotorControllerState.IDLE } 1
    (Or.inl rfl)

/-- `_check_state_transitions` only ever writes the state field. -/
theorem checkStateTransitions_telemetry (s : MCState) :
    (checkStateTransitions s).telemetry = s.telemetry := by
  unfold checkStateTransitions
  split
  · split
    · rfl
    · rfl
  · rfl

/-- A successful tick replaces the snapshot with the one composed from that
tick's readings. -/
theorem tick_some_telemetry (s : MCState) (r : PollReadings) :
    (tick s (some r)).telemetry = telemetryOfPoll r := by
  rw [tick, checkStateTransitions_telemetry]

/-- A successful tick in any state but STOPPING only swaps the snapshot. -/
theorem tick_not_stopping (s : MCState) (r : PollReadings)
    (h : s.state ≠ MotorControllerState.STOPPING) :
    tick s (some r) = { s with telemetry := telemetryOfPoll r } := by
  simp [tick, checkStateTransitions, h]

/-- C5: a STOPPING controller becomes IDLE on the first tick whose poll
reports both speed magnitudes below `STOPPED_THRESHOLD`, and stays STOPPING
on every tick whose poll reports some magnitude at or above it; hence after
`stopMotion()` the state is still STOPPING after any run of threshold-failing
ticks and becomes (and stays) IDLE within finitely many ticks once a poll
reports both magnitudes below the threshold. -/
theorem stopping_to_idle_below_threshold (t s : MCState)
    (pre post : List (Option PollReadings)) (r r' : PollReadings)
    (ht : t.state = MotorControllerState.STOPPING)
    (hpre : ∀ i ∈ pre, keepsStopping i)
    (h1 : |(r.speed1.speed : ℚ)| < STOPPED_THRESHOLD)
    (h2 : |(r.speed2.speed : ℚ)| < STOPPED_THRESHOLD)
    (hr' : STOPPED_THRESHOLD ≤ |(r'.speed1.speed : ℚ)| ∨
           STOPPED_THRESHOLD ≤ |(r'.speed2.speed : ℚ)|) :
    (tick t (some r)).state = MotorControllerState.IDLE ∧
    (tick t (some r')).state = MotorControllerState.STOPPING ∧
    (runTicks s.stopMotion pre).state = MotorControllerState.STOPPING ∧
    (runTicks s.stopMotion (pre ++ some r :: post)).state =
      MotorControllerState.IDLE := by
  have hstopState : (s.stopMotion).state = MotorControllerState.STOPPING := by
    simp [MCState.stopMotion, MCState.set_state]
  have hpreStop : (runTicks s.stopMotion pre).state =
      MotorControllerState.STOPPING :=
    runTicks_keeps_stopping pre _ hstopState hpre
  refine ⟨tick_stopping_to_idle t r ht h1 h2,
    tick_keeps_stopping t (some r') ht (Or.inr ⟨r', rfl, hr'⟩), hpreStop, ?_⟩
  have hsplit : runTicks s.stopMotion (pre ++ some r :: post) =
      runTicks (tick (runTicks s.stopMotion pre) (some r)) post := by
    simp [runTicks, List.foldl_append]
  rw [hsplit]
  exact runTicks_preserves_idle post _
    (tick_stopping_to_idle _ r hpreStop h1 h2)

/-- Witness for C5: from STOPPING, the healthy stopped poll yields IDLE; the
fast poll keeps STOPPING; after `stopMotion()` and one failing tick the state
is STOPPING, then the stopped poll yields IDLE. -/
theorem stopping_to_idle_below_threshold_witness :
    (tick { state := MotorControllerState.STOPPING }
        (some samplePollSmall)).state = MotorControllerState.IDLE ∧
    (tick { state := MotorControllerState.STOPPING }
        (some samplePollBig)).state = MotorControllerState.STOPPING ∧
    (runTicks (MCState.stopMotion {}) [some samplePollBig]).state =
      MotorControllerState.STOPPING ∧
    (runTicks (MCState.stopMotion {})
        ([some samplePollBig] ++ some samplePollSmall :: [none])).state =
      MotorControllerState.IDLE :=
  stopping_to_idle_below_threshold { state := MotorControllerState.STOPPING }
    {} [some samplePollBig] [none] samplePollSmall samplePollBig rfl
    (by
      intro i hi
      simp only [List.mem_singleton] at hi
      subst hi
      exact Or.inr ⟨samplePollBig, rfl, Or.inl (by norm_num [samplePollBig,
        samplePollSmall, STOPPED_THRESHOLD])⟩)
    (by norm_num [samplePollSmall, STOPPED_THRESHOLD])
    (by norm_num [samplePollSmall, STOPPED_THRESHOLD])
    (Or.inl (by norm_num [samplePollBig, samplePollSmall, STOPPED_THRESHOLD]))

/-- C2: a control-loop tick taken in state DISABLED whose poll succeeds with
`last_update` set and status "Normal" leaves the state DISABLED: the per-tick
transition evaluation (`_check_state_transitions`) only implements
STOPPING→IDLE, while the DISABLED→IDLE check (`_attempt_reset`, shown here to
produce IDLE on the same healthy snapshot) is invoked exactly once, from
`start()`, and never again from the loop. -/
theorem disabled_tick_stays_disabled :
    (tick {} (some samplePollSmall)).telemetry.status = "Normal" ∧
    (tick {} (some samplePollSmall)).telemetry.last_update = 1 ∧
    (tick {} (some samplePollSmall)).state = MotorControllerState.DISABLED ∧
    MotorControllerState.DISABLED ≠ MotorControllerState.IDLE ∧
    (attempt_reset (tick {} (some samplePollSmall)) 1).state =
      MotorControllerState.IDLE := by
  refine ⟨rfl, rfl, rfl, by decide, ?_⟩
  have ht : tick {} (some samplePollSmall) =
      { (({} : MCState)) with telemetry := telemetryOfPoll samplePollSmall } :=
    tick_not_stopping {} samplePollSmall (by decide)
  rw [ht]
  have hstale :
      isTelemetryStale
        { (({} : MCState)) with telemetry := telemetryOfPoll samplePollSmall }
        1 = false := by
    norm_num [isTelemetryStale, telemetryOfPoll, motorTelemetryOfPoll,
      samplePollSmall]
  unfold attempt_reset
  rw [if_neg (by decide), if_neg (by simp [hstale]), if_neg (by decide)]
  rfl

/-- C3: a tick on which the poll raises leaves the whole object — in
particular every telemetry field — unchanged (and the loop, having caught the
exception, goes on to the next tick); a successful tick replaces all snapshot
fields together with values from that one poll, so the post-tick snapshot is
always either the pre-tick snapshot or the complete freshly composed one,
never a mixture. -/
theorem telemetry_updated_atomically (s : MCState) (i : Option PollReadings) :
    tick s none = s ∧
    (∀ r : PollReadings, (tick s (some r)).telemetry = telemetryOfPoll r) ∧
    ((tick s i).telemetry = s.telemetry ∨
      ∃ r, i = some r ∧ (tick s i).telemetry = telemetryOfPoll r) := by
  refine ⟨rfl, fun r => tick_some_telemetry s r, ?_⟩
  cases i with
  | none => exact Or.inl rfl
  | some r => exact Or.inr ⟨r, rfl, tick_some_telemetry s r⟩

/-- C4: across any tick, the snapshot's `last_update` never decreases,
assuming the wall clock sampled at the tick's poll start is at least the
clock sample stored by the previous successful poll. -/
theorem last_update_monotone (s : MCState) (i : Option PollReadings)
    (hclock : ∀ r : PollReadings, i = some r →
      s.telemetry.last_update ≤ r.pollingStartTime) :
    s.telemetry.last_update ≤ (tick s i).telemetry.last_update := by
  cases i with
  | none => exact le_refl _
  | some r =>
      rw [tick_some_telemetry]
      exact hclock r rfl

/-- Witness for C4 from the initial snapshot (`last_update = 0`) through a
successful poll at wall-clock time 1. -/
theorem last_update_monotone_witness :
    (({} : MCState)).telemetry.last_update ≤
      (tick {} (some samplePollSmall)).telemetry.last_update :=
  last_update_monotone {} (some samplePollSmall)
    (by
      intro r h
      cases h
      norm_num [samplePollSmall, ControllerTelemetry, MCState])

/-- Draining a queue split in two processes the first part, then the second
from the reached state, concatenating the emitted calls. -/
theorem processEvents_append (env : PanelEnv) (s : RCCState)
    (xs ys : List PanelEvent) :
    processEvents env s (xs ++ ys) =
      ((processEvents env (processEvents env s xs).1 ys).1,
       (processEvents env s xs).2 ++
         (processEvents env (processEvents env s xs).1 ys).2) := by
  induction xs generalizing s with
  | nil => simp [processEvents]
  | cons e es ih =>
      simp [processEvents, ih, List.append_assoc]

/-- C1: handling EStop(PRESSED) sets the software latch and calls
`haltMotion()` then `stopShow()` during that very event's processing — hence,
in the drained FIFO trace, before any action of any later panel event — and
while the latch is set a Dispatch(PRESSED) event emits neither `startShow()`
nor `startRideSequence()`. -/
theorem estop_latches_and_blocks_dispatch (env : PanelEnv) (s t : RCCState)
    (pre post : List PanelEvent)
    (hlatched : t.estopSoftwareLatched = true) :
    handleEvent env s (PanelEvent.estop MomentaryButtonState.PRESSED) =
      ({ s with estopSoftwareLatched := true },
       [Action.haltMotion, Action.stopShow]) ∧
    (processEvents env s
        (pre ++ PanelEvent.estop MomentaryButtonState.PRESSED :: post)).2 =
      (processEvents env s pre).2 ++ [Action.haltMotion, Action.stopShow] ++
        (processEvents env
          { (processEvents env s pre).1 with estopSoftwareLatched := true }
          post).2 ∧
    (processEvents env s
        (pre ++ [PanelEvent.estop
          MomentaryButtonState.PRESSED])).1.estopSoftwareLatched = true ∧
    Action.startShow ∉
      (handleEvent env t (PanelEvent.dispatch MomentaryButtonState.PRESSED)).2 ∧
    Action.startRideSequence ∉
      (handleEvent env t (PanelEvent.dispatch MomentaryButtonState.PRESSED)).2 := by
  refine ⟨rfl, ?_, ?_, ?_, ?_⟩
  · rw [processEvents_append]
    simp [processEvents, handleEvent, handleEstop]
  · rw [processEvents_append]
    simp [processEvents, handleEvent, handleEstop]
  · simp [handleEvent, hlatched]
  · simp [handleEvent, hlatched]

/-- Witness for C1: a concrete queue `[Stop(PRESSED), EStop(PRESSED),
Dispatch(PRESSED)]` from the initial supervisor state, and a latched state
refusing dispatch. -/
theorem estop_latches_and_blocks_dispatch_witness :
    handleEvent ⟨false⟩ {} (PanelEvent.estop MomentaryButtonState.PRESSED) =
      ({ ({} : RCCState) with estopSoftwareLatched := true },
       [Action.haltMotion, Action.stopShow]) ∧
    (processEvents ⟨false⟩ {}
        ([PanelEvent.stop MomentaryButtonState.PRESSED] ++
          PanelEvent.estop MomentaryButtonState.PRESSED ::
            [PanelEvent.dispatch MomentaryButtonState.PRESSED])).2 =
      (processEvents ⟨false⟩ {}
          [PanelEvent.stop MomentaryButtonState.PRESSED]).2 ++
        [Action.haltMotion, Action.stopShow] ++
        (processEvents ⟨false⟩
          { (processEvents ⟨false⟩ {}
              [PanelEvent.stop MomentaryButtonState.PRESSED]).1 with
            estopSoftwareLatched := true }
          [PanelEvent.dispatch MomentaryButtonState.PRESSED]).2 ∧
    (processEvents ⟨false⟩ {}
        ([PanelEvent.stop MomentaryButtonState.PRESSED] ++
          [PanelEvent.estop
            MomentaryButtonState.PRESSED])).1.estopSoftwareLatched = true ∧
    Action.startShow ∉
      (handleEvent ⟨false⟩ { estopSoftwareLatched := true }
        (PanelEvent.dispatch MomentaryButtonState.PRESSED)).2 ∧
    Action.startRideSequence ∉
      (handleEvent ⟨false⟩ { estopSoftwareLatched := true }
        (PanelEvent.dispatch MomentaryButtonState.PRESSED)).2 :=
  estop_latches_and_blocks_dispatch ⟨false⟩ {} { estopSoftwareLatched := true }
    [PanelEvent.stop MomentaryButtonState.PRESSED]
    [PanelEvent.dispatch MomentaryButtonState.PRESSED] rfl

/-- C7: for every 16-bit configuration mask, the decoded standard config has
exactly one true entry among the four serial-mode keys, exactly one among the
eight battery-mode keys, exactly one among the eight baud-rate keys, and
exactly one among the eight packet-address keys. -/
theorem decode_standard_config_one_hot (c : ℕ) (hc : c < 65536) :
    serialModeTrueCount (decode_standard_config c) = 1 ∧
    batteryModeTrueCount (decode_standard_config c) = 1 ∧
    baudRateTrueCount (decode_standard_config c) = 1 ∧
    packetAddressTrueCount (decode_standard_config c) = 1 := by
  have e1 : c &&& 3 = c % 4 := by
    have h := and_mask_eq c 0 2
    norm_num [Nat.shiftLeft_eq] at h
    exact h
  have e2 : c &&& 28 = c / 4 % 8 * 4 := by
    have h := and_mask_eq c 2 3
    norm_num [Nat.shiftLeft_eq] at h
    exact h
  have e3 : c &&& 224 = c / 32 % 8 * 32 := by
    have h := and_mask_eq c 5 3
    norm_num [Nat.shiftLeft_eq] at h
    exact h
  have e4 : (c &&& 1792) >>> 8 = c / 256 % 8 := by
    have h := and_mask_eq c 8 3
    norm_num [Nat.shiftLeft_eq] at h
    rw [h, Nat.shiftRight_eq_div_pow]
    norm_num
  refine ⟨?_, ?_, ?_, ?_⟩
  · have h4 : c % 4 < 4 := Nat.mod_lt _ (by norm_num)
    simp only [decode_standard_config, serialModeTrueCount, e1]
    revert h4
    generalize c % 4 = m
    intro h4
    interval_cases m <;> rfl
  · have h8 : c / 4 % 8 < 8 := Nat.mod_lt _ (by norm_num)
    simp only [decode_standard_config, batteryModeTrueCount, e2]
    revert h8
    generalize c / 4 % 8 = m
    intro h8
    interval_cases m <;> rfl
  · have h8 : c / 32 % 8 < 8 := Nat.mod_lt _ (by norm_num)
    simp only [decode_standard_config, baudRateTrueCount, e3]
    revert h8
    generalize c / 32 % 8 = m
    intro h8
    interval_cases m <;> rfl
  · have h8 : c / 256 % 8 < 8 := Nat.mod_lt _ (by norm_num)
    simp only [decode_standard_config, packetAddressTrueCount, e4]
    revert h8
    generalize c / 256 % 8 = m
    intro h8
    interval_cases m <;> rfl

/-- Witness for C7 at the mask 0x1234. -/
theorem decode_standard_config_one_hot_witness :
    serialModeTrueCount (decode_standard_config 4660) = 1 ∧
    batteryModeTrueCount (decode_standard_config 4660) = 1 ∧
    baudRateTrueCount (decode_standard_config 4660) = 1 ∧
    packetAddressTrueCount (decode_standard_config 4660) = 1 :=
  decode_standard_config_one_hot 4660 (by norm_num)

/-- C8: `_poll_telemetry` publishes `speed_data["speed"]` verbatim, so a
`read_encoder_speed` result with magnitude 100 and a set direction byte
(direction "Backward") is published with speed +100, not −100: the sign is
never applied, contradicting the signed-speed contract. -/
theorem published_speed_ignores_direction :
    read_encoder_speed 100 2 = { speed := 100, direction := "Backward" } ∧
    (motorTelemetryOfPoll (read_encoder_speed 100 2) 1000 (1 / 2) 1).speed =
      100 ∧
    (motorTelemetryOfPoll (read_encoder_speed 100 2) 1000 (1 / 2)
        1).direction = "Backward" ∧
    (100 : ℚ) ≠ -100 := by
  refine ⟨rfl, ?_, rfl, by norm_num⟩
  norm_num [motorTelemetryOfPoll, read_encoder_speed]

/-- C9 counterexample: 26 is not a key of the status table, and the decoder
renders it in decimal ("Unknown Error: 26"), not as the hexadecimal
rendering ("Unknown Error: 1a") the claim asserts. -/
theorem unknown_status_decimal_not_hex :
    26 ∉ statusCodeKeys ∧
    statusDecode 26 = "Unknown Error: 26" ∧
    statusDecode 26 ≠ "Unknown Error: " ++ natToHexString 26 := by
  refine ⟨by decide, rfl, by decide⟩

/-- C9 (amended): `read_status` decodes the status value through the listed
table, and every value outside the table yields "Unknown Error: " followed by
the value rendered in decimal. -/
theorem read_status_table_and_decimal_fallback (v : ℕ)
    (hv : v ∉ statusCodeKeys) :
    (statusDecode 0x00000000 = "Normal" ∧
     statusDecode 0x00000001 = "E-Stop" ∧
     statusDecode 0x00000002 = "Temperature Error" ∧
     statusDecode 0x00000004 = "Temperature 2 Error" ∧
     statusDecode 0x00000008 = "Main Voltage High Error" ∧
     statusDecode 0x00000010 = "Logic Voltage High Error" ∧
     statusDecode 0x00000020 = "Logic Voltage Low Error" ∧
     statusDecode 0x00000040 = "M1 Driver Fault Error" ∧
     statusDecode 0x00000080 = "M2 Driver Fault Error" ∧
     statusDecode 0x00000100 = "M1 Speed Error" ∧
     statusDecode 0x00000200 = "M2 Speed Error" ∧
     statusDecode 0x00000400 = "M1 Position Error" ∧
     statusDecode 0x00000800 = "M2 Position Error" ∧
     statusDecode 0x00001000 = "M1 Current Error" ∧
     statusDecode 0x00002000 = "M2 Current Error" ∧
     statusDecode 0x00010000 = "M1 Over Current Warning" ∧
     statusDecode 0x00020000 = "M2 Over Current Warning" ∧
     statusDecode 0x00040000 = "Main Voltage High Warning" ∧
     statusDecode 0x00080000 = "Main Voltage Low Warning" ∧
     statusDecode 0x00100000 = "Temperature Warning" ∧
     statusDecode 0x00200000 = "Temperature 2 Warning" ∧
     statusDecode 0x00400000 = "S4 Signal Triggered" ∧
     statusDecode 0x00800000 = "S5 Signal Triggered" ∧
     statusDecode 0x01000000 = "Speed Error Limit Warning" ∧
     statusDecode 0x02000000 = "Position Error Limit Warning") ∧
    statusDecode v = "Unknown Error: " ++ toString v := by
  refine ⟨by decide, ?_⟩
  simp only [statusCodeKeys, List.mem_cons, List.not_mem_nil, or_false,
    not_or] at hv
  obtain ⟨h0, h1, h2, h3, h4, h5, h6, h7, h8, h9, h10, h11, h12, h13, h14,
    h15, h16, h17, h18, h19, h20, h21, h22, h23, h24⟩ := hv
  simp [statusDecode, h0, h1, h2, h3, h4, h5, h6, h7, h8, h9, h10, h11, h12,
    h13, h14, h15, h16, h17, h18, h19, h20, h21, h22, h23, h24]

/-- Witness for C9's amended theorem at the out-of-table value 26. -/
theorem read_status_table_and_decimal_fallback_witness :
    statusDecode 26 = "Unknown Error: " ++ toString 26 :=
  (read_status_table_and_decimal_fallback 26 (by decide)).2

end RideControl
